import Mathlib

/-!
Shallow embedding of `src/MovmentSimulatin/2D.py`, a minimal 2D kinematic
simulator (Vector arithmetic, Body integration, circular obstacles,
Environment step loop).  Python floats are modelled as rationals (`ℚ`);
Python exceptions are modelled with `Except Err`.
-/

namespace Sim2D

/-- The error kinds the Python code can raise (`ValueError`, `IndexError`,
`ZeroDivisionError`, missing attribute), plus `notFound` for
`Environment.get_obj`. -/
inductive Err where
  | dimensionMismatch
  | outOfRange
  | degenerateVector
  | divisionByZero
  | notFound
  | attributeUnset
deriving DecidableEq, Repr

/-- `Vector.__add__`: componentwise sum, `ValueError` when lengths differ. -/
def vadd (a b : List ℚ) : Except Err (List ℚ) :=
  if a.length ≠ b.length then .error .dimensionMismatch
  else .ok (List.zipWith (· + ·) a b)

/-- `Vector.__sub__`: componentwise difference, `ValueError` when lengths differ. -/
def vsub (a b : List ℚ) : Except Err (List ℚ) :=
  if a.length ≠ b.length then .error .dimensionMismatch
  else .ok (List.zipWith (· - ·) a b)

/-- `Vector.__mul__` / `__rmul__`: scale every component (no failure mode). -/
def vmul (a : List ℚ) (scalar : ℚ) : List ℚ :=
  a.map (· * scalar)

/-- Python list-index resolution used by `Vector.__getitem__` / `__setitem__`:
a nonnegative index must be `< n`; a negative index `i` addresses `n + i`
and must satisfy `n + i ≥ 0`.  Returns the resolved position. -/
def pyIndex (n : Nat) (i : ℤ) : Option Nat :=
  if 0 ≤ i then
    if i < (n : ℤ) then some i.toNat else none
  else
    if 0 ≤ i + (n : ℤ) then some (i + (n : ℤ)).toNat else none

/-- `Vector.__getitem__`: Python list indexing on the components
(`IndexError` when out of range, negative indices count from the end). -/
def vget (a : List ℚ) (i : ℤ) : Except Err ℚ :=
  match pyIndex a.length i with
  | some j => .ok (a.getD j 0)
  | none => .error .outOfRange

/-- `Vector.__setitem__`: Python list assignment on the components. -/
def vset (a : List ℚ) (i : ℤ) (value : ℚ) : Except Err (List ℚ) :=
  match pyIndex a.length i with
  | some j => .ok (a.set j value)
  | none => .error .outOfRange

/-- Modelled from the spec: the repository's `dot(a,b)` operation is not in
`src/` (the spec records two near-duplicate drafts of the simulator and only
one is present); per §4.1 it fails with DimensionMismatch when operand
lengths differ, otherwise it is the sum of componentwise products. -/
def vdot (a b : List ℚ) : Except Err ℚ :=
  if a.length ≠ b.length then .error .dimensionMismatch
  else .ok (List.zipWith (· * ·) a b).sum

/-- An `Obstacle`: circular region with center `position` and `radius`. -/
structure Obstacle where
  position : List ℚ
  radius : ℚ
deriving DecidableEq, Repr

/-- An `Obj` (body): the attributes `Obj.__init__` assigns.  `acc` and
`path` are `Option`s because Python sets them only after registering the
object into the environment; `none` models the attribute not yet existing
on a partially constructed object. -/
structure Obj where
  mass : ℚ
  vel : List ℚ
  force : List ℚ
  ident : String
  place : List ℚ
  acc : Option (List ℚ)
  path : Option (List (ℚ × ℚ))
deriving DecidableEq, Repr

/-- The `Environment`: gravity scalar, wind force vector, objects and
obstacles in insertion order. -/
structure Environment where
  gravity : ℚ
  wind : List ℚ
  objects : List Obj
  obstacles : List Obstacle
deriving DecidableEq, Repr

/-- `Obj.calculate_acceleration`:
`gravity_effect = Vector([0, -gravity * mass])`,
`net_force = force + gravity_effect + wind`, then divide each component by
`mass`.  Python raises `ZeroDivisionError` when `mass` is the float `0.0`;
in `ℚ` that case must be made explicit. -/
def calculate_acceleration (env : Environment) (mass : ℚ) (force : List ℚ) :
    Except Err (List ℚ) := do
  let gravity_effect : List ℚ := [0, -env.gravity * mass]
  let n1 ← vadd force gravity_effect
  let net_force ← vadd n1 env.wind
  if mass = 0 then .error .divisionByZero
  else .ok (net_force.map (· / mass))

/-- `Obj.__init__`: sets `mass`, `vel`, `force`, `ident`,
`place = Vector([0.0, 0.0])`, then calls `env.add_obj(self)` (appending the
object to `env.objects` BEFORE `acc` is computed), then computes `acc`, then
sets `path = []`.  Returns the updated environment together with the
constructed object or the error raised by the acceleration computation; on
error the registered entry still has `acc`/`path` unset (`none`). -/
def Obj.init (mass : ℚ) (vel force : List ℚ) (ident : String)
    (env : Environment) : Environment × Except Err Obj :=
  let pre : Obj :=
    { mass := mass, vel := vel, force := force, ident := ident,
      place := [0, 0], acc := none, path := none }
  match calculate_acceleration env mass force with
  | .error e => ({ env with objects := env.objects ++ [pre] }, .error e)
  | .ok a =>
      let obj : Obj := { pre with acc := some a, path := some [] }
      ({ env with objects := env.objects ++ [obj] }, .ok obj)

/-- Reading an attribute that `__init__` may not have assigned yet:
`none` models Python's missing attribute. -/
def getAttr {α : Type} : Option α → Except Err α
  | some a => .ok a
  | none => .error .attributeUnset

/-- `Obj.update_place`: in order, (1) position update with the old
acceleration, (2) velocity update with the same old acceleration,
(3) recompute acceleration, (4) append `(place[0], place[1])` to `path`. -/
def update_place (env : Environment) (obj : Obj) (time_step : ℚ) :
    Except Err Obj := do
  let a ← getAttr obj.acc
  let p ← getAttr obj.path
  let s1 ← vadd obj.place (vmul obj.vel time_step)
  let place ← vadd s1 (vmul a (1/2 * time_step ^ 2))
  let vel ← vadd obj.vel (vmul a time_step)
  let acc ← calculate_acceleration env obj.mass obj.force
  let x ← vget place 0
  let y ← vget place 1
  .ok { obj with place := place, vel := vel, acc := some acc,
                 path := some (p ++ [(x, y)]) }

/-- `Obstacle.check_collision`: Euclidean distance between
`obj.place` and `obstacle.position` is `≤ radius`.  Over the reals
`sqrt d2 ≤ r ↔ 0 ≤ r ∧ d2 ≤ r ^ 2`, which is how the square root is
discharged in `ℚ`. -/
def check_collision (obs : Obstacle) (obj : Obj) : Except Err Bool := do
  let x ← vget obj.place 0
  let y ← vget obj.place 1
  let cx ← vget obs.position 0
  let cy ← vget obs.position 1
  .ok (decide (0 ≤ obs.radius ∧
        (x - cx) ^ 2 + (y - cy) ^ 2 ≤ obs.radius ^ 2))

/-- The per-obstacle loop body of `Environment.simulate_movement`: test each
obstacle in insertion order; on a positive test, `vel ← vel * -0.5`. -/
def apply_collisions (obstacles : List Obstacle) (obj : Obj) :
    Except Err Obj :=
  obstacles.foldlM
    (fun o obs => do
      let c ← check_collision obs o
      if c then Except.ok { o with vel := vmul o.vel (-(1/2)) }
      else Except.ok o)
    obj

/-- One body's work in one simulation step: `update_place` then the obstacle
loop. -/
def sim_body_step (env : Environment) (time_step : ℚ) (obj : Obj) :
    Except Err Obj := do
  let obj ← update_place env obj time_step
  apply_collisions env.obstacles obj

/-- `Environment.get_obj`: linear scan, first identifier match wins,
`ValueError` (modelled `notFound`) otherwise. -/
def get_obj (env : Environment) (ident : String) : Except Err Obj :=
  match env.objects.find? (fun o => o.ident = ident) with
  | some o => .ok o
  | none => .error .notFound

/-- One full step of `simulate_movement` over all objects: each object is
advanced and collision-tested in insertion order.  Objects are mutually
independent within a step (each reads only the shared constants and its own
state), so the in-place Python loop is a `mapM`. -/
def sim_step_all (env : Environment) (time_step : ℚ) :
    Except Err Environment := do
  let objs ← env.objects.mapM (sim_body_step env time_step)
  .ok { env with objects := objs }

/-- `steps` iterations of the all-objects loop. -/
def simAllSteps (time_step : ℚ) : Nat → Environment → Except Err Environment
  | 0, env => .ok env
  | steps + 1, env => do
      let env' ← sim_step_all env time_step
      simAllSteps time_step steps env'

/-- `steps` iterations over the single selected object, held at index `i` of
`env.objects` (Python keeps one reference to it; its slot in the list is the
same object, so each step reads and writes index `i`). -/
def simSelectedSteps (time_step : ℚ) (i : Nat) :
    Nat → Environment → Except Err Environment
  | 0, env => .ok env
  | steps + 1, env => do
      match env.objects[i]? with
      | none => .error .notFound
      | some o => do
          let o' ← sim_body_step env time_step o
          simSelectedSteps time_step i steps
            { env with objects := env.objects.set i o' }

/-- `Environment.simulate_movement`: when `ident` is truthy (a non-`None`,
non-empty string), resolve the single object via `get_obj` (its index, since
the Python list aliases the same reference) and advance only it; otherwise
advance all objects.  Per-step printing is I/O and carries no state. -/
def simulate_movement (env : Environment) (time_step : ℚ) (steps : Nat) :
    Option String → Except Err Environment
  | some ident =>
      if ident = "" then simAllSteps time_step steps env
      else
        match env.objects.findIdx? (fun o => o.ident = ident) with
        | none => .error .notFound
        | some i => simSelectedSteps time_step i steps env
  | none => simAllSteps time_step steps env

/-- Whether `check_collision` succeeds with `true` (the guard of the
response branch). -/
def collidesB (obs : Obstacle) (obj : Obj) : Bool :=
  match check_collision obs obj with
  | .ok b => b
  | .error _ => false

/-- How many obstacles of the list report a collision with `obj`. -/
def countColliding (obstacles : List Obstacle) (obj : Obj) : Nat :=
  (obstacles.filter (fun obs => collidesB obs obj)).length

/-! ## Theorems -/

/-- C2: for a body of mass `m ≠ 0` with applied force `(fx, fy)` in a world
with gravity `g` and wind `(wx, wy)`, the recomputed acceleration is
`(F + (0, -g*m) + W) / m` componentwise, the wind summed as a raw force
before the division by `m`. -/
theorem C2_acceleration_formula (m g fx fy wx wy : ℚ)
    (os : List Obj) (obs : List Obstacle) (hm : m ≠ 0) :
    calculate_acceleration
      { gravity := g, wind := [wx, wy], objects := os, obstacles := obs }
      m [fx, fy]
    = .ok [(fx + 0 + wx) / m, (fy + -(g * m) + wy) / m] := by
  simp [calculate_acceleration, vadd, hm, Bind.bind, Except.bind]

/-- Witness for C2 at `m = 2`, `g = 1`, `F = (3, 4)`, `W = (5, 6)`. -/
theorem C2_acceleration_formula_witness :
    (2 : ℚ) ≠ 0 ∧
    calculate_acceleration
      { gravity := 1, wind := [5, 6], objects := [], obstacles := [] }
      2 [3, 4]
    = .ok [((3 : ℚ) + 0 + 5) / 2, ((4 : ℚ) + -(1 * 2) + 6) / 2] :=
  ⟨by norm_num, C2_acceleration_formula 2 1 3 4 5 6 [] [] (by norm_num)⟩

/-- C5, counterexample: with wind `(0.56, 0)`, force `(0, -5)`, mass `10`,
gravity `9.81`, the code computes acceleration `(0.056, -10.31)`; the
claimed `y` component `-9.81` is off by exactly `-0.5` (the force term
`-5/10`), so the acceleration is not approximately `(0.056, -9.81)`. -/
theorem C5_counterexample :
    calculate_acceleration
      { gravity := 981/100, wind := [14/25, 0], objects := [], obstacles := [] }
      10 [0, -5]
    = .ok [7/125, -1031/100] ∧
    (-1031/100 : ℚ) - (-981/100) = -(1/2) := by
  constructor
  · norm_num [calculate_acceleration, vadd, Bind.bind, Except.bind]
  · norm_num

/-- C5, amended: with wind `(0.56, 0)`, force `(0, -5)`, mass `10`, gravity
`9.81`, the computed acceleration is exactly `(0.056, -10.31)` (the `y`
component carries the `-5/10` of the applied force on top of `-9.81`). -/
theorem C5_amended_acceleration :
    calculate_acceleration
      { gravity := 981/100, wind := [14/25, 0], objects := [], obstacles := [] }
      10 [0, -5]
    = .ok [(56 : ℚ)/1000, -(1031 : ℚ)/100] := by
  norm_num [calculate_acceleration, vadd, Bind.bind, Except.bind]

/-- C1: `advance(timeStep)` on a 2D body performs, in order: position update
with the old acceleration `(ax, ay)`, velocity update with the same old
acceleration, acceleration recompute via the acceleration rule, and exactly
one append of the new `(position.x, position.y)` to `path`. -/
theorem C1_update_place_order (m g t px py vx vy ax ay fx fy wx wy : ℚ)
    (p : List (ℚ × ℚ)) (s : String) (os : List Obj) (obs : List Obstacle)
    (hm : m ≠ 0) :
    update_place
      { gravity := g, wind := [wx, wy], objects := os, obstacles := obs }
      { mass := m, vel := [vx, vy], force := [fx, fy], ident := s,
        place := [px, py], acc := some [ax, ay], path := some p } t
    = .ok
      { mass := m,
        vel := [vx + ax * t, vy + ay * t],
        force := [fx, fy], ident := s,
        place := [px + vx * t + ax * (1/2 * t ^ 2),
                  py + vy * t + ay * (1/2 * t ^ 2)],
        acc := some [(fx + 0 + wx) / m, (fy + -(g * m) + wy) / m],
        path := some (p ++ [(px + vx * t + ax * (1/2 * t ^ 2),
                             py + vy * t + ay * (1/2 * t ^ 2))]) } := by
  simp [update_place, getAttr, calculate_acceleration, vadd, vmul, vget,
    pyIndex, hm, Bind.bind, Except.bind]

/-- Witness for C1 at `m = 1`, `g = 2`, `t = 3`, velocity `(1, 1)`, old
acceleration `(1, 2)`, force `(0, 0)`, wind `(0, 0)`, empty path. -/
theorem C1_update_place_order_witness :
    (1 : ℚ) ≠ 0 ∧
    update_place
      { gravity := 2, wind := [0, 0], objects := [], obstacles := [] }
      { mass := 1, vel := [1, 1], force := [0, 0], ident := "b",
        place := [0, 0], acc := some [1, 2], path := some [] } 3
    = .ok
      { mass := (1 : ℚ),
        vel := [1 + 1 * 3, 1 + 2 * 3],
        force := [0, 0], ident := "b",
        place := [0 + 1 * 3 + 1 * (1/2 * 3 ^ 2),
                  0 + 1 * 3 + 2 * (1/2 * 3 ^ 2)],
        acc := some [((0 : ℚ) + 0 + 0) / 1, ((0 : ℚ) + -(2 * 1) + 0) / 1],
        path := some ([] ++ [((0 : ℚ) + 1 * 3 + 1 * (1/2 * 3 ^ 2),
                              (0 : ℚ) + 1 * 3 + 2 * (1/2 * 3 ^ 2))]) } :=
  ⟨by norm_num,
   C1_update_place_order 1 2 3 0 0 1 1 1 2 0 0 0 0 [] "b" [] [] (by norm_num)⟩

/-- C8, counterexample: the claim says every negative index fails with
OutOfRange, but Python list indexing accepts negative indices that count
from the end: `get(-1)` on `[1, 2, 3]` returns `3` and `set(-2, 9)`
returns `[1, 9, 3]`. -/
theorem C8_counterexample :
    vget [(1 : ℚ), 2, 3] (-1) = .ok 3 ∧
    vset [(1 : ℚ), 2, 3] (-2) 9 = .ok [1, 9, 3] := by
  constructor <;> rfl

/-- C8, amended: `get(i)`/`set(i,v)` on a vector of length `n` fail with
OutOfRange exactly when `i < -n` or `i ≥ n`; for `0 ≤ i < n` they address
component `i`, and for `-n ≤ i < 0` they address component `n + i`
(Python negative indexing). -/
theorem C8_amended_indexing (a : List ℚ) (i : ℤ) (v : ℚ) :
    ((∃ x, vget a i = .ok x) ↔
      -(a.length : ℤ) ≤ i ∧ i < (a.length : ℤ)) ∧
    ((∃ b, vset a i v = .ok b) ↔
      -(a.length : ℤ) ≤ i ∧ i < (a.length : ℤ)) ∧
    (¬(-(a.length : ℤ) ≤ i ∧ i < (a.length : ℤ)) →
      vget a i = .error .outOfRange ∧ vset a i v = .error .outOfRange) ∧
    (0 ≤ i → i < (a.length : ℤ) →
      vget a i = .ok (a.getD i.toNat 0) ∧
      vset a i v = .ok (a.set i.toNat v)) ∧
    (i < 0 → -(a.length : ℤ) ≤ i →
      vget a i = .ok (a.getD (i + (a.length : ℤ)).toNat 0) ∧
      vset a i v = .ok (a.set (i + (a.length : ℤ)).toNat v)) := by
  refine ⟨?_, ?_, ?_, ?_, ?_⟩ <;>
    · simp only [vget, vset, pyIndex]
      by_cases h0 : 0 ≤ i <;> by_cases h1 : i < (a.length : ℤ) <;>
        by_cases h2 : 0 ≤ i + (a.length : ℤ) <;>
        simp [h0, h1, h2] <;> omega

/-- Witness for C8 at vector `[1, 2, 3]`, index `-1`, value `9`. -/
theorem C8_amended_indexing_witness :
    vget [(1 : ℚ), 2, 3] (-1)
      = .ok (([(1 : ℚ), 2, 3]).getD ((-1) + (([(1 : ℚ), 2, 3]).length : ℤ)).toNat 0) ∧
    vset [(1 : ℚ), 2, 3] (-1) 9
      = .ok (([(1 : ℚ), 2, 3]).set ((-1) + (([(1 : ℚ), 2, 3]).length : ℤ)).toNat 9) :=
  (C8_amended_indexing [1, 2, 3] (-1) 9).2.2.2.2 (by norm_num) (by norm_num)

/-- C9: `add`, `subtract` and `dot` on vectors of differing lengths fail
with DimensionMismatch; on equal lengths `add`/`subtract` succeed and
return the componentwise sum/difference. -/
theorem C9_dimension_rules (a b : List ℚ) :
    (a.length ≠ b.length →
      vadd a b = .error .dimensionMismatch ∧
      vsub a b = .error .dimensionMismatch ∧
      vdot a b = .error .dimensionMismatch) ∧
    (a.length = b.length →
      ∃ s d : List ℚ, vadd a b = .ok s ∧ vsub a b = .ok d ∧
        s.length = a.length ∧ d.length = a.length ∧
        ∀ (j : ℕ) (x y : ℚ), a[j]? = some x → b[j]? = some y →
          s[j]? = some (x + y) ∧ d[j]? = some (x - y)) := by
  constructor
  · intro h
    simp [vadd, vsub, vdot, h]
  · intro h
    refine ⟨List.zipWith (· + ·) a b, List.zipWith (· - ·) a b,
      by simp [vadd, h], by simp [vsub, h],
      by simp [List.length_zipWith, h],
      by simp [List.length_zipWith, h], ?_⟩
    intro j x y hx hy
    constructor <;> rw [List.getElem?_zipWith] <;> rw [hx, hy]

/-- Witness for C9: mismatch at `[1, 2]` vs `[3]`, success at `[1, 2]` vs
`[3, 4]`. -/
theorem C9_dimension_rules_witness :
    (vadd [(1 : ℚ), 2] [3] = .error .dimensionMismatch ∧
     vsub [(1 : ℚ), 2] [3] = .error .dimensionMismatch ∧
     vdot [(1 : ℚ), 2] [3] = .error .dimensionMismatch) ∧
    (∃ s d : List ℚ, vadd [(1 : ℚ), 2] [3, 4] = .ok s ∧
      vsub [(1 : ℚ), 2] [3, 4] = .ok d ∧
      s.length = ([(1 : ℚ), 2]).length ∧ d.length = ([(1 : ℚ), 2]).length ∧
      ∀ (j : ℕ) (x y : ℚ), ([(1 : ℚ), 2])[j]? = some x → ([(3 : ℚ), 4])[j]? = some y →
        s[j]? = some (x + y) ∧ d[j]? = some (x - y)) :=
  ⟨(C9_dimension_rules [1, 2] [3]).1 (by norm_num),
   (C9_dimension_rules [1, 2] [3, 4]).2 (by norm_num)⟩

/-- Inversion for a successful `Except` bind. -/
theorem except_bind_ok {α β : Type} (x : Except Err α) (f : α → Except Err β)
    (y : β) (h : x >>= f = .ok y) : ∃ z, x = .ok z ∧ f z = .ok y := by
  cases x with
  | error e => exact absurd h (by simp [Bind.bind, Except.bind])
  | ok z => exact ⟨z, rfl, by simpa [Bind.bind, Except.bind] using h⟩

/-- `vadd` only ever fails with DimensionMismatch. -/
theorem vadd_error_eq (a b : List ℚ) (e : Err) (h : vadd a b = .error e) :
    e = .dimensionMismatch := by
  unfold vadd at h
  split at h
  · exact (Except.error.injEq _ _).mp h |>.symm
  · exact absurd h (by simp)

/-- C4, counterexample: the code never validates the mass, so construction
with the negative mass `-1` succeeds (the claim requires every mass `≤ 0`
to fail with InvalidMass). -/
theorem C4_counterexample :
    (Obj.init (-1) [0, 0] [0, 0] "a"
       { gravity := 981/100, wind := [0, 0], objects := [], obstacles := [] }).2
    = .ok { mass := -1, vel := [0, 0], force := [0, 0], ident := "a",
            place := [0, 0], acc := some [0, -(981/100)], path := some [] } := by
  norm_num [Obj.init, calculate_acceleration, vadd, Bind.bind, Except.bind]

/-- C4, amended: only a mass of exactly `0` makes construction fail, with a
division-by-zero error (there is no InvalidMass check, so any nonzero mass
— negative included — succeeds); advancing never changes the mass, and with
a nonzero mass the acceleration recompute can never fail on the division by
mass. -/
theorem C4_amended_mass_validation (m g fx fy wx wy : ℚ) (vel : List ℚ)
    (s : String) (os : List Obj) (obs : List Obstacle) (hm : m ≠ 0) :
    (Obj.init 0 vel [fx, fy] s
       { gravity := g, wind := [wx, wy], objects := os, obstacles := obs }).2
      = .error .divisionByZero ∧
    (∃ o, (Obj.init m vel [fx, fy] s
       { gravity := g, wind := [wx, wy], objects := os, obstacles := obs }).2
      = .ok o ∧ o.mass = m) ∧
    (∀ (env : Environment) (f : List ℚ),
       calculate_acceleration env m f ≠ .error .divisionByZero) ∧
    (∀ (env : Environment) (obj : Obj) (t : ℚ) (obj' : Obj),
       update_place env obj t = .ok obj' → obj'.mass = obj.mass) := by
  refine ⟨?_, ?_, ?_, ?_⟩
  · norm_num [Obj.init, calculate_acceleration, vadd, Bind.bind, Except.bind]
  · refine ⟨Obj.mk m vel [fx, fy] s [0, 0]
      (some [(fx + wx) / m, (fy + -(g * m) + wy) / m]) (some []), ?_, rfl⟩
    norm_num [Obj.init, calculate_acceleration, vadd, Bind.bind, Except.bind, hm]
  · intro env f
    unfold calculate_acceleration
    cases h1 : vadd f [0, -(env.gravity * m)] with
    | error e =>
        have he := vadd_error_eq _ _ _ h1
        subst he
        simp [h1, Bind.bind, Except.bind]
    | ok n1 =>
        cases h2 : vadd n1 env.wind with
        | error e =>
            have he := vadd_error_eq _ _ _ h2
            subst he
            simp [h1, h2, Bind.bind, Except.bind]
        | ok net => simp [h1, h2, hm, Bind.bind, Except.bind]
  · intro env obj t obj' h
    unfold update_place at h
    obtain ⟨a, -, h⟩ := except_bind_ok _ _ _ h
    obtain ⟨p, -, h⟩ := except_bind_ok _ _ _ h
    obtain ⟨s1, -, h⟩ := except_bind_ok _ _ _ h
    obtain ⟨place, -, h⟩ := except_bind_ok _ _ _ h
    obtain ⟨vel', -, h⟩ := except_bind_ok _ _ _ h
    obtain ⟨acc, -, h⟩ := except_bind_ok _ _ _ h
    obtain ⟨x, -, h⟩ := except_bind_ok _ _ _ h
    obtain ⟨y, -, h⟩ := except_bind_ok _ _ _ h
    cases h
    rfl

/-- Witness for C4 at `m = -1`, gravity `9.81`, zero wind and force. -/
theorem C4_amended_mass_validation_witness :
    (Obj.init 0 [0, 0] [(0 : ℚ), 0] "a"
       { gravity := 981/100, wind := [0, 0], objects := [], obstacles := [] }).2
      = .error .divisionByZero ∧
    (∃ o, (Obj.init (-1) [0, 0] [(0 : ℚ), 0] "a"
       { gravity := 981/100, wind := [0, 0], objects := [], obstacles := [] }).2
      = .ok o ∧ o.mass = -1) ∧
    (∀ (env : Environment) (f : List ℚ),
       calculate_acceleration env (-1) f ≠ .error .divisionByZero) ∧
    (∀ (env : Environment) (obj : Obj) (t : ℚ) (obj' : Obj),
       update_place env obj t = .ok obj' → obj'.mass = obj.mass) :=
  C4_amended_mass_validation (-1) (981/100) 0 0 0 0 [0, 0] "a" [] []
    (by norm_num)

/-- C7, counterexample: construction never adapts the position to the input
dimension — with a 3-component initial velocity (and 2-component force) the
construction succeeds and the position is still the 2-component zero vector,
not a zero vector of the velocity's dimension. -/
theorem C7_counterexample :
    (Obj.init 1 [0, 0, 0] [0, 0] "a"
       { gravity := 981/100, wind := [0, 0], objects := [], obstacles := [] }).2
    = .ok (Obj.mk 1 [0, 0, 0] [0, 0] "a" [0, 0]
             (some [0, -(981/100)]) (some [])) ∧
    (Obj.mk (1 : ℚ) [0, 0, 0] [0, 0] "a" [0, 0]
       (some [0, -(981/100)]) (some [])).place.length = 2 ∧
    (Obj.mk (1 : ℚ) [0, 0, 0] [0, 0] "a" [0, 0]
       (some [0, -(981/100)]) (some [])).vel.length = 3 := by
  refine ⟨?_, rfl, rfl⟩
  norm_num [Obj.init, calculate_acceleration, vadd, Bind.bind, Except.bind]

/-- C7, amended: every successful construction sets the position to the
2-component zero vector (whatever the dimensions of velocity and force),
computes the acceleration immediately via the acceleration rule, appends
the body to the owning environment's object collection, and starts the path
empty; gravity, wind and obstacles are untouched. -/
theorem C7_amended_construction (m : ℚ) (vel force : List ℚ) (s : String)
    (env env' : Environment) (obj : Obj)
    (h : Obj.init m vel force s env = (env', .ok obj)) :
    obj.place = [0, 0] ∧ obj.path = some [] ∧
    obj.mass = m ∧ obj.vel = vel ∧ obj.force = force ∧ obj.ident = s ∧
    (∃ a, calculate_acceleration env m force = .ok a ∧ obj.acc = some a) ∧
    env'.objects = env.objects ++ [obj] ∧
    env'.gravity = env.gravity ∧ env'.wind = env.wind ∧
    env'.obstacles = env.obstacles := by
  unfold Obj.init at h
  cases hc : calculate_acceleration env m force with
  | error e =>
      rw [hc] at h
      simp at h
  | ok a =>
      rw [hc] at h
      simp only [Prod.mk.injEq, Except.ok.injEq] at h
      obtain ⟨h1, h2⟩ := h
      subst h2
      subst h1
      exact ⟨rfl, rfl, rfl, rfl, rfl, rfl, ⟨a, rfl, rfl⟩, rfl, rfl, rfl, rfl⟩

/-- Witness for C7 at mass `1`, velocity `(0, 0)`, force `(0, 0)`,
gravity `9.81`, no wind. -/
theorem C7_amended_construction_witness :
    (Obj.mk (1 : ℚ) [0, 0] [0, 0] "a" [0, 0]
       (some [0, -(981/100)]) (some [])).place = [0, 0] ∧
    (Obj.mk (1 : ℚ) [0, 0] [0, 0] "a" [0, 0]
       (some [0, -(981/100)]) (some [])).path = some [] ∧
    (Obj.mk (1 : ℚ) [0, 0] [0, 0] "a" [0, 0]
       (some [0, -(981/100)]) (some [])).mass = 1 ∧
    (Obj.mk (1 : ℚ) [0, 0] [0, 0] "a" [0, 0]
       (some [0, -(981/100)]) (some [])).vel = [0, 0] ∧
    (Obj.mk (1 : ℚ) [0, 0] [0, 0] "a" [0, 0]
       (some [0, -(981/100)]) (some [])).force = [0, 0] ∧
    (Obj.mk (1 : ℚ) [0, 0] [0, 0] "a" [0, 0]
       (some [0, -(981/100)]) (some [])).ident = "a" ∧
    (∃ a, calculate_acceleration
        { gravity := 981/100, wind := [0, 0], objects := [], obstacles := [] }
        1 [0, 0] = .ok a ∧
      (Obj.mk (1 : ℚ) [0, 0] [0, 0] "a" [0, 0]
         (some [0, -(981/100)]) (some [])).acc = some a) ∧
    ({ gravity := (981 : ℚ)/100, wind := [0, 0],
       objects := [Obj.mk (1 : ℚ) [0, 0] [0, 0] "a" [0, 0]
         (some [0, -(981/100)]) (some [])], obstacles := [] :
       Environment }).objects
      = ({ gravity := (981 : ℚ)/100, wind := [0, 0], objects := [],
           obstacles := [] : Environment }).objects
        ++ [Obj.mk (1 : ℚ) [0, 0] [0, 0] "a" [0, 0]
             (some [0, -(981/100)]) (some [])] ∧
    ((981 : ℚ)/100) = ((981 : ℚ)/100) ∧
    ([0, 0] : List ℚ) = ([0, 0] : List ℚ) ∧
    ([] : List Obstacle) = ([] : List Obstacle) :=
  C7_amended_construction 1 [0, 0] [0, 0] "a"
    { gravity := 981/100, wind := [0, 0], objects := [], obstacles := [] }
    { gravity := 981/100, wind := [0, 0],
      objects := [Obj.mk (1 : ℚ) [0, 0] [0, 0] "a" [0, 0]
        (some [0, -(981/100)]) (some [])], obstacles := [] }
    (Obj.mk (1 : ℚ) [0, 0] [0, 0] "a" [0, 0] (some [0, -(981/100)]) (some []))
    (by norm_num [Obj.init, calculate_acceleration, vadd, Bind.bind,
      Except.bind])

/-- C10: when construction fails during the acceleration computation, the
environment's object collection has already been mutated: it ends with the
partially constructed body (its `acc` and `path` attributes never
assigned), so construction is not atomic with respect to world state. -/
theorem C10_registration_not_atomic (m : ℚ) (vel force : List ℚ) (s : String)
    (env env' : Environment) (e : Err)
    (h : Obj.init m vel force s env = (env', .error e)) :
    env'.objects = env.objects ++ [Obj.mk m vel force s [0, 0] none none] ∧
    env'.objects.length = env.objects.length + 1 := by
  unfold Obj.init at h
  cases hc : calculate_acceleration env m force with
  | ok a =>
      rw [hc] at h
      simp at h
  | error e' =>
      rw [hc] at h
      simp only [Prod.mk.injEq, Except.error.injEq] at h
      obtain ⟨h1, -⟩ := h
      subst h1
      simp

/-- Witness for C10: constructing with mass `0` fails with the
division-by-zero error, yet the environment's collection has gained the
partial body. -/
theorem C10_registration_not_atomic_witness :
    ({ gravity := (981 : ℚ)/100, wind := [0, 0],
       objects := [Obj.mk (0 : ℚ) [0, 0] [0, 0] "a" [0, 0] none none],
       obstacles := [] : Environment }).objects
      = ({ gravity := (981 : ℚ)/100, wind := [0, 0], objects := [],
           obstacles := [] : Environment }).objects
        ++ [Obj.mk (0 : ℚ) [0, 0] [0, 0] "a" [0, 0] none none] ∧
    ({ gravity := (981 : ℚ)/100, wind := [0, 0],
       objects := [Obj.mk (0 : ℚ) [0, 0] [0, 0] "a" [0, 0] none none],
       obstacles := [] : Environment }).objects.length
      = ({ gravity := (981 : ℚ)/100, wind := [0, 0], objects := [],
           obstacles := [] : Environment }).objects.length + 1 :=
  C10_registration_not_atomic 0 [0, 0] [0, 0] "a"
    { gravity := 981/100, wind := [0, 0], objects := [], obstacles := [] }
    { gravity := 981/100, wind := [0, 0],
      objects := [Obj.mk (0 : ℚ) [0, 0] [0, 0] "a" [0, 0] none none],
      obstacles := [] }
    .divisionByZero
    (by norm_num [Obj.init, calculate_acceleration, vadd, Bind.bind,
      Except.bind])

/-- Scaling twice multiplies the scalars. -/
theorem vmul_vmul (v : List ℚ) (a b : ℚ) :
    vmul (vmul v a) b = vmul v (a * b) := by
  simp [vmul, List.map_map, Function.comp, mul_assoc]

/-- Scaling by `1` is the identity. -/
theorem vmul_one (v : List ℚ) : vmul v 1 = v := by
  simp [vmul]

/-- The collision test reads only the body's position, so changing the
velocity does not change its result. -/
theorem check_collision_set_vel (obs : Obstacle) (o : Obj) (w : List ℚ) :
    check_collision obs { o with vel := w } = check_collision obs o := rfl

/-- Likewise for the Boolean collision test. -/
theorem collidesB_set_vel (obs : Obstacle) (o : Obj) (w : List ℚ) :
    collidesB obs { o with vel := w } = collidesB obs o := rfl

/-- Likewise for the collision count. -/
theorem countColliding_set_vel (obstacles : List Obstacle) (o : Obj)
    (w : List ℚ) :
    countColliding obstacles { o with vel := w }
      = countColliding obstacles o := rfl

/-- Unfolding one obstacle of the response loop. -/
theorem apply_collisions_cons (obs : Obstacle) (rest : List Obstacle)
    (o : Obj) (b : Bool) (hb : check_collision obs o = .ok b) :
    apply_collisions (obs :: rest) o
      = apply_collisions rest
          (if b then { o with vel := vmul o.vel (-(1/2)) } else o) := by
  unfold apply_collisions
  rw [List.foldlM_cons]
  cases b <;> simp [hb, Bind.bind, Except.bind]

/-- The obstacle-response loop multiplies the velocity by `-0.5` once per
obstacle whose test is positive, in obstacle order, and touches nothing
else. -/
theorem apply_collisions_ok (obstacles : List Obstacle) :
    ∀ (o : Obj), (∀ obs ∈ obstacles, ∃ b, check_collision obs o = .ok b) →
      ∃ o', apply_collisions obstacles o = .ok o' ∧
        o'.vel = vmul o.vel ((-(1/2 : ℚ)) ^ countColliding obstacles o) ∧
        o'.place = o.place ∧ o'.mass = o.mass ∧ o'.acc = o.acc ∧
        o'.path = o.path := by
  induction obstacles with
  | nil =>
      intro o _
      exact ⟨o, rfl, by simp [countColliding, vmul_one], rfl, rfl, rfl, rfl⟩
  | cons obs rest ih =>
      intro o h
      obtain ⟨b, hb⟩ := h obs (List.mem_cons_self _ _)
      cases b with
      | false =>
          obtain ⟨o', ho', hvel, hrest⟩ :=
            ih o (fun obs' hm => h obs' (List.mem_cons_of_mem _ hm))
          refine ⟨o', ?_, ?_, hrest⟩
          · rw [apply_collisions_cons obs rest o false hb]
            simpa using ho'
          · rw [hvel]
            have hcb : collidesB obs o = false := by simp [collidesB, hb]
            simp [countColliding, List.filter_cons, hcb]
      | true =>
          have h' : ∀ obs' ∈ rest,
              ∃ b, check_collision obs'
                { o with vel := vmul o.vel (-(1/2)) } = .ok b := by
            intro obs' hm
            rw [check_collision_set_vel]
            exact h obs' (List.mem_cons_of_mem _ hm)
          obtain ⟨o', ho', hvel, hrest⟩ :=
            ih { o with vel := vmul o.vel (-(1/2)) } h'
          refine ⟨o', ?_, ?_, hrest⟩
          · rw [apply_collisions_cons obs rest o true hb]
            simpa using ho'
          · rw [hvel]
            have hcb : collidesB obs o = true := by simp [collidesB, hb]
            rw [countColliding_set_vel]
            show vmul (vmul o.vel (-(1/2))) _ = _
            rw [vmul_vmul]
            have hcount : countColliding (obs :: rest) o
                = countColliding rest o + 1 := by
              simp [countColliding, List.filter_cons, hcb]
            rw [hcount, pow_succ, mul_comm]

/-- C3: in a simulation step the advanced body is tested against every
obstacle in order, each positive test multiplying the velocity by `-0.5`
again, so colliding with `k` obstacles in one step scales the velocity by
`(-0.5)^k`; in particular a single collision turns velocity `(4, 0)` into
`(-2, 0)`. -/
theorem C3_cumulative_collision_response (env : Environment)
    (obj obj₁ : Obj) (t : ℚ)
    (h1 : update_place env obj t = .ok obj₁)
    (h2 : ∀ obs ∈ env.obstacles, ∃ b, check_collision obs obj₁ = .ok b) :
    (∃ obj₂, sim_body_step env t obj = .ok obj₂ ∧
       obj₂.vel = vmul obj₁.vel
         ((-(1/2 : ℚ)) ^ countColliding env.obstacles obj₁) ∧
       obj₂.place = obj₁.place) ∧
    vmul [(4 : ℚ), 0] (-(1/2)) = [-2, 0] := by
  obtain ⟨obj₂, ha, hvel, hplace, -⟩ := apply_collisions_ok env.obstacles obj₁ h2
  refine ⟨⟨obj₂, ?_, hvel, hplace⟩, by norm_num [vmul]⟩
  unfold sim_body_step
  simp [Bind.bind, Except.bind, h1, ha]

/-- Witness for C3: a stationary body at the origin inside a radius-1
obstacle, one step of length 1 with zero gravity and wind. -/
theorem C3_cumulative_collision_response_witness :
    (∃ obj₂, sim_body_step (Environment.mk 0 [0, 0] [] [Obstacle.mk [0, 0] 1])
         1 (Obj.mk 1 [0, 0] [0, 0] "c" [0, 0] (some [0, 0]) (some []))
         = .ok obj₂ ∧
       obj₂.vel = vmul (Obj.mk (1 : ℚ) [0, 0] [0, 0] "c" [0, 0]
           (some [0, 0]) (some [(0, 0)])).vel
         ((-(1/2 : ℚ)) ^ countColliding
            (Environment.mk (0 : ℚ) [0, 0] [] [Obstacle.mk [0, 0] 1]).obstacles
            (Obj.mk (1 : ℚ) [0, 0] [0, 0] "c" [0, 0]
              (some [0, 0]) (some [(0, 0)]))) ∧
       obj₂.place = (Obj.mk (1 : ℚ) [0, 0] [0, 0] "c" [0, 0]
         (some [0, 0]) (some [(0, 0)])).place) ∧
    vmul [(4 : ℚ), 0] (-(1/2)) = [-2, 0] :=
  C3_cumulative_collision_response
    (Environment.mk 0 [0, 0] [] [Obstacle.mk [0, 0] 1])
    (Obj.mk 1 [0, 0] [0, 0] "c" [0, 0] (some [0, 0]) (some []))
    (Obj.mk 1 [0, 0] [0, 0] "c" [0, 0] (some [0, 0]) (some [(0, 0)])) 1
    (by norm_num [update_place, getAttr, calculate_acceleration, vadd, vmul,
      vget, pyIndex, Bind.bind, Except.bind])
    (by
      intro obs hobs
      simp only [List.mem_singleton] at hobs
      subst hobs
      exact ⟨true, by norm_num [check_collision, vget, pyIndex, Bind.bind,
        Except.bind, decide_eq_true_eq]⟩)

/-- Targeted simulation only ever writes the selected index: every other
slot of the object list is untouched across any number of steps. -/
theorem simSelectedSteps_frame (t : ℚ) (i : Nat) :
    ∀ (k : Nat) (env env' : Environment),
      simSelectedSteps t i k env = .ok env' →
      ∀ j, j ≠ i → env'.objects[j]? = env.objects[j]? := by
  intro k
  induction k with
  | zero =>
      intro env env' h j hj
      unfold simSelectedSteps at h
      cases h
      rfl
  | succ k ih =>
      intro env env' h j hj
      unfold simSelectedSteps at h
      cases hg : env.objects[i]? with
      | none => rw [hg] at h; exact absurd h (by simp)
      | some o =>
          rw [hg] at h
          obtain ⟨o', -, h⟩ := except_bind_ok _ _ _ h
          have hstep := ih _ _ h j hj
          rw [hstep]
          exact List.getElem?_set_ne (Ne.symm hj)

/-- C6: running the simulation with a (nonempty) target identifier leaves
every body whose identifier differs from the target completely unchanged
(same position, velocity, acceleration and path), for any time step and
step count. -/
theorem C6_target_only_advances_target (env env' : Environment) (t : ℚ)
    (steps : Nat) (tgt : String) (hid : tgt ≠ "")
    (h : simulate_movement env t steps (some tgt) = .ok env') :
    ∀ (j : Nat) (o : Obj), env.objects[j]? = some o → o.ident ≠ tgt →
      env'.objects[j]? = some o := by
  simp only [simulate_movement] at h
  rw [if_neg hid] at h
  cases hf : env.objects.findIdx? (fun o => o.ident = tgt) with
  | none => rw [hf] at h; exact absurd h (by simp)
  | some i =>
      rw [hf] at h
      intro j o hj hne
      have hji : j ≠ i := by
        rintro rfl
        obtain ⟨hlt, hp, -⟩ := List.findIdx?_eq_some_iff_getElem.mp hf
        have hgj : env.objects[j]? = some (env.objects.get ⟨j, hlt⟩) :=
          List.getElem?_eq_getElem hlt
        rw [hj] at hgj
        have hit : o.ident = tgt := by
          have h2 := of_decide_eq_true hp
          have ho : o = env.objects.get ⟨j, hlt⟩ := Option.some.inj hgj
          rw [ho]
          exact h2
        exact hne hit
      rw [← hj]
      exact simSelectedSteps_frame t i steps env env' h j hji

/-- Witness for C6: a world with bodies "X" and "Y", one step of length 1
targeting "X"; body "Y" is returned unchanged. -/
theorem C6_target_only_advances_target_witness :
    (Environment.mk (0 : ℚ) [0, 0]
      [Obj.mk 1 [0, 0] [0, 0] "X" [0, 0] (some [0, 0]) (some [(0, 0)]),
       Obj.mk 1 [0, 0] [0, 0] "Y" [0, 0] (some [0, 0]) (some [])]
      []).objects[1]?
    = some (Obj.mk 1 [0, 0] [0, 0] "Y" [0, 0] (some [0, 0]) (some [])) :=
  C6_target_only_advances_target
    (Environment.mk 0 [0, 0]
      [Obj.mk 1 [0, 0] [0, 0] "X" [0, 0] (some [0, 0]) (some []),
       Obj.mk 1 [0, 0] [0, 0] "Y" [0, 0] (some [0, 0]) (some [])]
      [])
    (Environment.mk 0 [0, 0]
      [Obj.mk 1 [0, 0] [0, 0] "X" [0, 0] (some [0, 0]) (some [(0, 0)]),
       Obj.mk 1 [0, 0] [0, 0] "Y" [0, 0] (some [0, 0]) (some [])]
      [])
    1 1 "X" (by decide)
    (by
      have hstep : sim_body_step
          (Environment.mk 0 [0, 0]
            [Obj.mk 1 [0, 0] [0, 0] "X" [0, 0] (some [0, 0]) (some []),
             Obj.mk 1 [0, 0] [0, 0] "Y" [0, 0] (some [0, 0]) (some [])]
            []) 1
          (Obj.mk 1 [0, 0] [0, 0] "X" [0, 0] (some [0, 0]) (some []))
          = .ok (Obj.mk 1 [0, 0] [0, 0] "X" [0, 0]
              (some [0, 0]) (some [(0, 0)])) := by
        norm_num [sim_body_step, update_place, getAttr, apply_collisions,
          calculate_acceleration, vadd, vmul, vget, pyIndex,
          Bind.bind, Except.bind, pure, Except.pure]
      show (sim_body_step
          (Environment.mk 0 [0, 0]
            [Obj.mk 1 [0, 0] [0, 0] "X" [0, 0] (some [0, 0]) (some []),
             Obj.mk 1 [0, 0] [0, 0] "Y" [0, 0] (some [0, 0]) (some [])]
            []) 1
          (Obj.mk 1 [0, 0] [0, 0] "X" [0, 0] (some [0, 0]) (some []))
        >>= fun o' => simSelectedSteps 1 0 0
          (Environment.mk 0 [0, 0]
            (List.set
              [Obj.mk 1 [0, 0] [0, 0] "X" [0, 0] (some [0, 0]) (some []),
               Obj.mk 1 [0, 0] [0, 0] "Y" [0, 0] (some [0, 0]) (some [])]
              0 o')
            [])) = _
      rw [hstep]
      rfl)
    1 (Obj.mk 1 [0, 0] [0, 0] "Y" [0, 0] (some [0, 0]) (some []))
    rfl (by decide)

end Sim2D
